import Mathlib

/-!
Shallow embedding of `src/source/register_files_to_profile.cpp` (scalene's
traceable-source filter and call-stack locator).

The C++ core consists of:
* `PyStringPtrList` with its classification method `should_trace`,
* the stack walker `getPythonInfo`,
* the registration entry point `register_files_to_profile`.

Modelling decisions:
* C strings become Lean `String`; C's `strstr(h, n) != NULL` becomes
  `strstrB h n = true` (substring containment, with the empty needle
  matching everything, as in C).
* `realpath` (the filesystem) is an explicit parameter
  `fs : String → Option String`; `none` models resolution failure, in
  which case the C code calls `abort()`, modelled by the distinguished
  outcome `TraceResult.fatal`.
* Python frames become the `Frame` structure: `co_filename_decoded` is the
  result of `PyBytes_AsString (PyUnicode_AsASCIIString (co_filename))`
  (`none` models a decode failure, i.e. `!encoded`); `f_lasti` is the
  instruction offset; `addr2line` models `PyCode_Addr2Line` on this
  frame's code object.
* The singleton `_instance` is passed explicitly as an
  `Option PyStringPtrList`.
-/

/-- Boolean test that `p` is an initial segment of the second list
(character-wise), used to implement C `strstr`. -/
def hasPre : List Char → List Char → Bool
  | [], _ => true
  | _ :: _, [] => false
  | a :: as, b :: bs => a == b && hasPre as bs

/-- Boolean test that `n` occurs as a contiguous run inside `h`,
used to implement C `strstr`. -/
def hasSub (n : List Char) : List Char → Bool
  | [] => hasPre n []
  | b :: bs => hasPre n (b :: bs) || hasSub n bs

/-- `strstrB haystack needle = true` iff C's `strstr(haystack, needle)`
returns a non-null pointer: `needle` occurs as a substring of `haystack`
(the empty needle always matches). -/
def strstrB (haystack needle : String) : Bool :=
  hasSub needle.toList haystack.toList

/-- `firstCharLt s = true` iff the C test `*filename == '<'` succeeds:
the first character of `s` is `'<'` (false for the empty string, whose
first byte is the terminating NUL). -/
def firstCharLt (s : String) : Bool :=
  match s.toList with
  | [] => false
  | c :: _ => c == '<'

/-- Outcome of `should_trace`: either a boolean classification, or
`fatal` when `realpath` fails and the C code calls `abort()`. -/
inductive TraceResult where
  | ok : Bool → TraceResult
  | fatal : TraceResult
deriving DecidableEq

/-- The filter object of `register_files_to_profile.cpp`.  `items` holds
the decoded fragment strings copied from the Python list in the
constructor, `scalene_base_path` the decoded base path, `profile_all` the
flag.  (The C++ `owner` pointer is non-null whenever a `PyStringPtrList`
exists — the constructor stores the incoming `list_wrapper` and
`Py_INCREF`s it — so the `owner != nullptr` guard around the fragment
loop in `should_trace` is always taken.) -/
structure PyStringPtrList where
  items : List String
  scalene_base_path : String
  profile_all : Bool
deriving DecidableEq

/-- `PyStringPtrList::should_trace(filename)`, with the filesystem
(`realpath`) passed explicitly as `fs`.  Mirrors the C++ rule order:
library markers, interactive sources, scalene self-exclusion, fragment
match, and finally `realpath`-based base-path containment (aborting on
resolution failure). -/
def should_trace (fs : String → Option String) (self : PyStringPtrList)
    (filename : String) : TraceResult :=
  if strstrB filename "site-packages" || strstrB filename "/lib/python" then
    .ok false
  else if firstCharLt filename && strstrB filename "<ipython" then
    .ok true
  else if strstrB filename "scalene/scalene" then
    .ok false
  else if self.items.any (fun traceable => strstrB filename traceable) then
    .ok true
  else
    match fs filename with
    | none => .fatal
    | some resolved_path => .ok (strstrB resolved_path self.scalene_base_path)

example :
    should_trace (fun _ => none)
      ⟨["myproj"], "/home/u/project", false⟩ "/x/site-packages/myproj/mod.py"
      = .ok false := by decide

example :
    should_trace (fun _ => none)
      ⟨[], "/home/u/project", false⟩ "<ipython-input-3-abcd>"
      = .ok true := by decide

example :
    should_trace (fun s => if s == "/home/u/project/sub/a.py" then some "/home/u/project/sub/a.py" else none)
      ⟨[], "/home/u/project", false⟩ "/home/u/project/sub/a.py"
      = .ok true := by decide

/-- One Python stack frame as seen by `getPythonInfo`:
`co_filename_decoded` is the result of decoding
`frame->f_code->co_filename` via `PyUnicode_AsASCIIString` /
`PyBytes_AsString` (`none` models a decode failure, i.e. `!encoded`);
`f_lasti` is the frame's current instruction offset; `addr2line` models
`PyCode_Addr2Line` applied to this frame's `f_code`. -/
structure Frame where
  co_filename_decoded : Option String
  f_lasti : Int
  addr2line : Int → Int

/-- The out-parameters of `getPythonInfo` together with its `int` return
value (`found = true` iff the C function returns 1). -/
structure StackLocationResult where
  sourceFile : String
  line : Int
  bytei : Int
  found : Bool
deriving DecidableEq

/-- The sentinel result `("<BOGUS>", 1, 0)` with `found = false`, stored
into the out-parameters before the walk starts. -/
def sentinel : StackLocationResult :=
  { sourceFile := "<BOGUS>", line := 1, bytei := 0, found := false }

/-- Outcome of `getPythonInfo`: a returned result, or `fatal` when a
consulted `should_trace` hits the `abort()` path. -/
inductive LocateOutcome where
  | result : StackLocationResult → LocateOutcome
  | fatal : LocateOutcome
deriving DecidableEq

/-- The frame-walking loop of `getPythonInfo`, over an explicit list of
frames (innermost first, as `PyEval_GetFrame` / `f_back` produce them),
with the singleton filter `inst` (`PyStringPtrList::getInstance()`) and
the filesystem `fs` passed explicitly.  Mirrors the C++ loop body:
decode failure returns 0 with the sentinel still in the out-parameters;
an empty filename continues; a filename containing `"<"`, `"/python"` or
`"scalene/scalene"` is skipped without consulting the filter; otherwise
`should_trace` decides, with a positive answer returning that frame's
filename, `f_lasti`, and `PyCode_Addr2Line(f_code, f_lasti)`. -/
def getPythonInfo (inst : Option PyStringPtrList)
    (fs : String → Option String) : List Frame → LocateOutcome
  | [] => .result sentinel
  | f :: rest =>
    match f.co_filename_decoded with
    | none => .result sentinel
    | some filenameStr =>
      if filenameStr.isEmpty then
        getPythonInfo inst fs rest
      else if !(strstrB filenameStr "<") && !(strstrB filenameStr "/python")
          && !(strstrB filenameStr "scalene/scalene") then
        match inst with
        | none => getPythonInfo inst fs rest
        | some py_string_ptr_list =>
          match should_trace fs py_string_ptr_list filenameStr with
          | .fatal => .fatal
          | .ok true =>
            .result { sourceFile := filenameStr,
                      line := f.addr2line f.f_lasti,
                      bytei := f.f_lasti,
                      found := true }
          | .ok false => getPythonInfo inst fs rest
      else
        getPythonInfo inst fs rest

/-- The scope argument passed to `register_files_to_profile`: either a
Python list (whose items decode to the given strings), or some other,
non-list object. -/
inductive ScopeArg where
  | pylist : List String → ScopeArg
  | other : ScopeArg
deriving DecidableEq

/-- `register_files_to_profile` after successful `PyArg_ParseTuple`,
acting on the current singleton `prev`.  Returns (error-was-set, new
singleton).  Faithful to the C++ control flow: when `PyList_Check`
fails, `PyErr_SetString` runs but the function does NOT return — it
falls through and still calls
`PyStringPtrList::setInstance(new PyStringPtrList(...))`, replacing the
previous filter.  (On a non-list, `PyList_Size` returns -1 so the
item-copying loop copies nothing; in the model the installed filter has
an empty fragment list.  In practice `items.reserve((size_t)-1)` may
even terminate the process — either way the prior filter does not
survive.) -/
def register_files_to_profile (prev : Option PyStringPtrList)
    (a_list : ScopeArg) (base_path : String) (profile_all : Bool) :
    Bool × Option PyStringPtrList :=
  let errorSet := match a_list with
    | .pylist _ => false
    | .other => true
  let newInstance := match a_list with
    | .pylist xs =>
        ({ items := xs, scalene_base_path := base_path,
           profile_all := profile_all } : PyStringPtrList)
    | .other =>
        { items := [], scalene_base_path := base_path,
          profile_all := profile_all }
  let _ := prev
  (errorSet, some newInstance)

example :
    getPythonInfo (some ⟨["app"], "/home/u", false⟩) (fun _ => none)
      [⟨some "my_app.py", 3, fun _ => 17⟩]
      = .result ⟨"my_app.py", 17, 3, true⟩ := by decide

example :
    getPythonInfo (some ⟨[], "/home/u", false⟩) (fun _ => none)
      [⟨some "<ipython-input-3-abcd>", 3, fun _ => 17⟩]
      = .result sentinel := by decide

/-- A frame past which the `getPythonInfo` loop simply continues: its
filename decodes, and is empty, or carries one of the three cheap-reject
markers, or the filter is absent or classifies it `.ok false`. -/
def frameSkipped (inst : Option PyStringPtrList)
    (fs : String → Option String) (f : Frame) : Bool :=
  match f.co_filename_decoded with
  | none => false
  | some s =>
    s.isEmpty
    || !(!(strstrB s "<") && !(strstrB s "/python")
         && !(strstrB s "scalene/scalene"))
    || (match inst with
        | none => true
        | some p => decide (should_trace fs p s = TraceResult.ok false))

theorem getPythonInfo_skip_frame (inst : Option PyStringPtrList)
    (fs : String → Option String) (f : Frame) (rest : List Frame)
    (h : frameSkipped inst fs f = true) :
    getPythonInfo inst fs (f :: rest) = getPythonInfo inst fs rest := by
  unfold frameSkipped at h
  conv_lhs => rw [getPythonInfo]
  cases hd : f.co_filename_decoded with
  | none => rw [hd] at h; exact absurd h (by simp)
  | some s =>
    rw [hd] at h
    by_cases he : s.isEmpty
    · simp [he]
    · simp only [he, Bool.false_or] at h ⊢
      simp only [Bool.or_eq_true] at h
      rcases h with h | h
      · simp only [Bool.not_eq_true'] at h
        simp [he, h]
      · cases hi : inst with
        | none => simp [he]
        | some p =>
          rw [hi] at h
          simp only [decide_eq_true_eq] at h
          by_cases hm : (!strstrB s "<" && !strstrB s "/python"
              && !strstrB s "scalene/scalene") = true
          · simp [he, hm, h]
          · simp only [Bool.not_eq_true] at hm
            simp [he, hm]

theorem getPythonInfo_skip_all (inst : Option PyStringPtrList)
    (fs : String → Option String) (pre rest : List Frame)
    (h : ∀ f ∈ pre, frameSkipped inst fs f = true) :
    getPythonInfo inst fs (pre ++ rest) = getPythonInfo inst fs rest := by
  induction pre with
  | nil => rfl
  | cons f pre ih =>
    rw [List.cons_append,
      getPythonInfo_skip_frame inst fs f _ (h f (by simp))]
    exact ih (fun g hg => h g (by simp [hg]))

/-- Claim C10: for every fragment list, base path, filename and filesystem
state, `should_trace` returns the same result whether the filter was
constructed with `profile_all = true` or with `profile_all = false`: the
flag is never read by the classification. -/
theorem should_trace_ignores_profile_all (items : List String)
    (base : String) (fs : String → Option String) (filename : String) :
    should_trace fs ⟨items, base, true⟩ filename
      = should_trace fs ⟨items, base, false⟩ filename := rfl

/-- Claim C2: whenever the filename contains `"site-packages"` or
`"/lib/python"`, `should_trace` answers `false`, for every filter (in
particular even when a configured fragment matches the filename) and
every filesystem state: the library-marker exclusion is evaluated first. -/
theorem should_trace_library_marker_excludes (fs : String → Option String)
    (p : PyStringPtrList) (filename : String)
    (h : strstrB filename "site-packages" = true
        ∨ strstrB filename "/lib/python" = true) :
    should_trace fs p filename = .ok false := by
  unfold should_trace
  rcases h with h | h <;> simp [h]

theorem should_trace_library_marker_excludes_witness :
    should_trace (fun _ => none) ⟨["myproj"], "/home/u/project", false⟩
        "/x/site-packages/myproj/mod.py" = .ok false
    ∧ strstrB "/x/site-packages/myproj/mod.py" "myproj" = true :=
  ⟨should_trace_library_marker_excludes (fun _ => none)
      ⟨["myproj"], "/home/u/project", false⟩ "/x/site-packages/myproj/mod.py"
      (Or.inl (by decide)),
    by decide⟩

/-- Claim C9: when `should_trace` reaches the fragment rule (no library
marker, not an interactive source, no scalene self-marker) and some
configured fragment occurs in the filename, the answer is `true` for
every filesystem state `fs` — in particular for `fs` where the path does
not resolve at all — so no canonical-path resolution is involved and the
result does not depend on `base_path`. -/
theorem should_trace_fragment_short_circuit (fs : String → Option String)
    (p : PyStringPtrList) (filename : String)
    (h1 : strstrB filename "site-packages" = false)
    (h2 : strstrB filename "/lib/python" = false)
    (h3 : (firstCharLt filename && strstrB filename "<ipython") = false)
    (h4 : strstrB filename "scalene/scalene" = false)
    (h5 : p.items.any (fun traceable => strstrB filename traceable) = true) :
    should_trace fs p filename = .ok true := by
  unfold should_trace
  simp [h1, h2, h3, h4, h5]

theorem should_trace_fragment_short_circuit_witness :
    should_trace (fun _ => none) ⟨["myproj"], "/home/u/project", false⟩
      "/tmp/elsewhere/myproj/a.py" = .ok true :=
  should_trace_fragment_short_circuit (fun _ => none)
    ⟨["myproj"], "/home/u/project", false⟩ "/tmp/elsewhere/myproj/a.py"
    (by decide) (by decide) (by decide) (by decide) (by decide)

/-- Claim C3: when `should_trace` reaches the last rule (no library marker,
not an interactive source, no scalene self-marker, no fragment match),
it resolves the filename through the filesystem: if resolution fails the
outcome is the fatal abort (not a recoverable `false`), and otherwise
the answer is `true` exactly when the canonical path contains
`base_path` as a substring. -/
theorem should_trace_basepath_fallback (fs : String → Option String)
    (p : PyStringPtrList) (filename : String)
    (h1 : strstrB filename "site-packages" = false)
    (h2 : strstrB filename "/lib/python" = false)
    (h3 : (firstCharLt filename && strstrB filename "<ipython") = false)
    (h4 : strstrB filename "scalene/scalene" = false)
    (h5 : p.items.any (fun traceable => strstrB filename traceable) = false) :
    (fs filename = none → should_trace fs p filename = .fatal)
    ∧ ∀ resolved_path, fs filename = some resolved_path →
        (should_trace fs p filename = .ok true
          ↔ strstrB resolved_path p.scalene_base_path = true) := by
  unfold should_trace
  simp only [h1, h2, h3, h4, h5, Bool.or_self, Bool.false_eq_true,
    if_false]
  constructor
  · intro hfs; rw [hfs]
  · intro resolved_path hfs
    rw [hfs]
    simp

/-- Claim C4: a frame whose non-empty decoded filename contains `"<"`, or
`"/python"`, or `"scalene/scalene"` is skipped by the walk — the result
on `f :: rest` equals the result on `rest` — for every installed filter
and every filesystem state, so the filter's `should_trace` is not
consulted on that frame (its answer, even a fatal one, cannot matter). -/
theorem getPythonInfo_marker_skip (inst : Option PyStringPtrList)
    (fs : String → Option String) (f : Frame) (rest : List Frame)
    (s : String)
    (hd : f.co_filename_decoded = some s)
    (hne : s.isEmpty = false)
    (hm : strstrB s "<" = true ∨ strstrB s "/python" = true
        ∨ strstrB s "scalene/scalene" = true) :
    getPythonInfo inst fs (f :: rest) = getPythonInfo inst fs rest := by
  conv_lhs => rw [getPythonInfo]
  rw [hd]
  rcases hm with h | h | h <;> simp [hne, h]

theorem getPythonInfo_marker_skip_witness :
    getPythonInfo (some ⟨[], "/home/u/project", false⟩) (fun _ => none)
        [⟨some "<stdin>", 0, fun _ => 1⟩] = .result sentinel
    ∧ should_trace (fun _ => none) ⟨[], "/home/u/project", false⟩
        "<stdin>" = .fatal := by
  constructor
  · rw [getPythonInfo_marker_skip (some ⟨[], "/home/u/project", false⟩)
      (fun _ => none) ⟨some "<stdin>", 0, fun _ => 1⟩ [] "<stdin>"
      rfl (by decide) (Or.inl (by decide))]
    rfl
  · decide

/-- Claim C7: if, after a run of frames the walk skips, a frame's filename
fails to decode, the whole search returns the sentinel (`"<BOGUS>"`,
line 1, offset 0, `found = false`), regardless of what frames lie
beyond it — the undecodable frame aborts the walk instead of being
skipped. -/
theorem getPythonInfo_decode_failure_aborts (inst : Option PyStringPtrList)
    (fs : String → Option String) (pre : List Frame) (f : Frame)
    (post : List Frame)
    (hpre : ∀ g ∈ pre, frameSkipped inst fs g = true)
    (hd : f.co_filename_decoded = none) :
    getPythonInfo inst fs (pre ++ f :: post) = .result sentinel := by
  rw [getPythonInfo_skip_all inst fs pre _ hpre]
  conv_lhs => rw [getPythonInfo]
  rw [hd]

theorem getPythonInfo_decode_failure_aborts_witness :
    getPythonInfo (some ⟨["app.py"], "/home/u/project", false⟩)
      (fun s => some s)
      [⟨some "", 0, fun _ => 1⟩, ⟨none, 0, fun _ => 1⟩,
        ⟨some "/y/app.py", 7, fun _ => 42⟩]
      = .result sentinel := by
  have h := getPythonInfo_decode_failure_aborts
    (some ⟨["app.py"], "/home/u/project", false⟩) (fun s => some s)
    [⟨some "", 0, fun _ => 1⟩] ⟨none, 0, fun _ => 1⟩
    [⟨some "/y/app.py", 7, fun _ => 42⟩]
    (by
      intro g hg
      rw [List.mem_singleton] at hg
      subst hg
      decide)
    rfl
  exact h

/-- Claim C6: the walk visits frames innermost first; after a run of skipped
frames, the first frame whose filename decodes, is non-empty, carries no
cheap-reject marker and is classified traceable is returned immediately
with that frame's filename, `PyCode_Addr2Line(f_code, f_lasti)` as the
line, `f_lasti` as the instruction offset, and `found = true` — whatever
outer frames (even traceable ones) follow. -/
theorem getPythonInfo_first_traceable_wins (p : PyStringPtrList)
    (fs : String → Option String) (pre : List Frame) (f : Frame)
    (post : List Frame) (s : String)
    (hpre : ∀ g ∈ pre, frameSkipped (some p) fs g = true)
    (hd : f.co_filename_decoded = some s)
    (hne : s.isEmpty = false)
    (hm1 : strstrB s "<" = false)
    (hm2 : strstrB s "/python" = false)
    (hm3 : strstrB s "scalene/scalene" = false)
    (ht : should_trace fs p s = .ok true) :
    getPythonInfo (some p) fs (pre ++ f :: post)
      = .result { sourceFile := s, line := f.addr2line f.f_lasti,
                  bytei := f.f_lasti, found := true } := by
  rw [getPythonInfo_skip_all (some p) fs pre _ hpre]
  conv_lhs => rw [getPythonInfo]
  rw [hd]
  simp [hne, hm1, hm2, hm3, ht]

theorem getPythonInfo_first_traceable_wins_witness :
    getPythonInfo (some ⟨["app.py", "lib2.py"], "/home/u/project", false⟩)
      (fun s => some s)
      [⟨some "/x/vendor.py", 0, fun _ => 3⟩,
        ⟨some "/y/app.py", 7, fun _ => 42⟩,
        ⟨some "/z/lib2.py", 1, fun _ => 9⟩]
      = .result ⟨"/y/app.py", 42, 7, true⟩ := by
  have h := getPythonInfo_first_traceable_wins
    ⟨["app.py", "lib2.py"], "/home/u/project", false⟩ (fun s => some s)
    [⟨some "/x/vendor.py", 0, fun _ => 3⟩] ⟨some "/y/app.py", 7, fun _ => 42⟩
    [⟨some "/z/lib2.py", 1, fun _ => 9⟩] "/y/app.py"
    (by
      intro g hg
      rw [List.mem_singleton] at hg
      subst hg
      decide)
    rfl (by decide) (by decide) (by decide) (by decide) (by decide)
  exact h

/-- Claim C5: whenever the walk returns `found = true`, the returned source
file contains none of `"<"`, `"/python"`, `"scalene/scalene"` — even
though `should_trace` itself classifies some such filenames as
traceable, e.g. the interactive `"<ipython-input-3-abcd>"` and a
fragment-matched path containing `"/python"`. -/
theorem getPythonInfo_found_not_marked :
    (∀ (inst : Option PyStringPtrList) (fs : String → Option String)
        (stack : List Frame) (r : StackLocationResult),
      getPythonInfo inst fs stack = .result r → r.found = true →
        strstrB r.sourceFile "<" = false
          ∧ strstrB r.sourceFile "/python" = false
          ∧ strstrB r.sourceFile "scalene/scalene" = false)
    ∧ should_trace (fun _ => none) ⟨[], "/base", false⟩
        "<ipython-input-3-abcd>" = .ok true
    ∧ should_trace (fun _ => none) ⟨["/python/proj"], "/base", false⟩
        "/python/proj/a.py" = .ok true := by
  refine ⟨?_, by decide, by decide⟩
  intro inst fs stack
  induction stack with
  | nil =>
    intro r h hf
    rw [getPythonInfo] at h
    cases h
    exact absurd hf (by decide)
  | cons f rest ih =>
    intro r h hf
    rw [getPythonInfo] at h
    split at h
    · cases h
      exact absurd hf (by decide)
    · split at h
      · exact ih r h hf
      · split at h
        · split at h
          · exact ih r h hf
          · split at h
            · exact absurd h (by simp)
            · cases h
              simp_all
            · exact ih r h hf
        · exact ih r h hf

theorem getPythonInfo_found_not_marked_witness :
    strstrB "/y/app.py" "<" = false
      ∧ strstrB "/y/app.py" "/python" = false
      ∧ strstrB "/y/app.py" "scalene/scalene" = false :=
  getPythonInfo_found_not_marked.1
    (some ⟨["app.py"], "/home/u/project", false⟩) (fun _ => none)
    [⟨some "/y/app.py", 7, fun _ => 42⟩] ⟨"/y/app.py", 42, 7, true⟩
    (by decide) rfl

/-- Claim C8: with no filter ever installed (`getInstance()` returns null),
the walk treats no frame as traceable and returns the sentinel
(`"<BOGUS>"`, 1, 0, `found = false`) for every stack and every
filesystem state — and in particular never hits the fatal path. -/
theorem getPythonInfo_no_filter_sentinel (fs : String → Option String)
    (stack : List Frame) :
    getPythonInfo none fs stack = .result sentinel := by
  induction stack with
  | nil => rfl
  | cons f rest ih =>
    rw [getPythonInfo]
    split
    · rfl
    · split
      · exact ih
      · split
        · exact ih
        · exact ih

/-- Claim C1 (code bug): when the scope argument is not list-like, the C code
sets the error string but does not return; it falls through and still
calls `setInstance`, so the previously installed filter is replaced
rather than retained.  Evaluated at a concrete failing input: the error
flag is set, yet the installed filter is no longer the previous one
(fragment list `["app.py"]`). -/
theorem register_files_to_profile_nonlist_still_installs :
    (register_files_to_profile (some ⟨["app.py"], "/home/u/project", false⟩)
        ScopeArg.other "/base" true).1 = true
    ∧ (register_files_to_profile (some ⟨["app.py"], "/home/u/project", false⟩)
        ScopeArg.other "/base" true).2
        ≠ some ⟨["app.py"], "/home/u/project", false⟩ := by
  constructor
  · rfl
  · decide

theorem should_trace_basepath_fallback_witness :
    should_trace (fun _ => none) ⟨[], "/home/u/project", false⟩
        "/tmp/other/a.py" = .fatal
    ∧ should_trace (fun _ => some "/home/u/project/sub/a.py")
        ⟨[], "/home/u/project", false⟩ "a.py" = .ok true :=
  ⟨(should_trace_basepath_fallback (fun _ => none)
      ⟨[], "/home/u/project", false⟩ "/tmp/other/a.py"
      (by decide) (by decide) (by decide) (by decide) (by decide)).1 rfl,
    ((should_trace_basepath_fallback (fun _ => some "/home/u/project/sub/a.py")
      ⟨[], "/home/u/project", false⟩ "a.py"
      (by decide) (by decide) (by decide) (by decide) (by decide)).2
      "/home/u/project/sub/a.py" rfl).mpr (by decide)⟩
